import Mathlib

set_option maxRecDepth 40000

/-
Verification of the overlay-rendering runtime (src/web/runtime.js) against its
natural-language specification. The JavaScript runtime is shallowly embedded:
numbers are unnormalised decimal rationals, JSON values are an inductive type,
the browser primitives the code calls (atob, escape, decodeURIComponent,
JSON.parse) are modelled as executable Lean functions, and the DOM state the
scaffolding code touches is an explicit record.
-/

namespace Masker

/-- Decimal rational m / 10^e: the number representation used throughout the
embedding (JSON numbers, geometry). Kept unnormalised so kernel evaluation
stays cheap; equality of representations is used only where both sides are
built the same way. -/
structure Dec where
  m : Int
  e : Nat
deriving DecidableEq

def Dec.zero : Dec := ⟨0, 0⟩

def Dec.one : Dec := ⟨1, 0⟩

def Dec.half : Dec := ⟨5, 1⟩

instance (n : Nat) : OfNat Dec n := ⟨⟨(n : Int), 0⟩⟩

def Dec.add (a b : Dec) : Dec :=
  ⟨a.m * (10 : Int) ^ b.e + b.m * (10 : Int) ^ a.e, a.e + b.e⟩

def Dec.mul (a b : Dec) : Dec := ⟨a.m * b.m, a.e + b.e⟩

instance : Add Dec := ⟨Dec.add⟩

instance : Mul Dec := ⟨Dec.mul⟩

/-- Comparison of the represented rationals (denominators are positive). -/
def Dec.blt (a b : Dec) : Bool := a.m * (10 : Int) ^ b.e < b.m * (10 : Int) ^ a.e

def Dec.isZero (a : Dec) : Bool := a.m = 0

def Dec.floor (a : Dec) : Int := Int.ediv a.m ((10 : Int) ^ a.e)

/-- Truncation toward zero (ECMAScript integer conversion on finite values). -/
def Dec.trunc (a : Dec) : Int :=
  if 0 ≤ a.m then Int.ediv a.m ((10 : Int) ^ a.e)
  else - Int.ediv (- a.m) ((10 : Int) ^ a.e)

/-- ECMAScript Math.round on finite values: floor of x + 1/2. -/
def roundJS (a : Dec) : Int := (a + Dec.half).floor

/-- ECMAScript ToInt32 of a finite number. -/
def toInt32D (a : Dec) : Int :=
  let r := Int.emod a.trunc 4294967296
  if 2147483648 ≤ r then r - 4294967296 else r

/-- JavaScript values reachable in the runtime: JSON.parse results plus the
`undefined` produced by missing-property access. -/
inductive JVal where
  | jundef
  | jnull
  | jbool (b : Bool)
  | jnum (d : Dec)
  | jstr (s : String)
  | jarr (xs : List JVal)
  | jobj (fields : List (String × JVal))

/-- Last-wins lookup, matching duplicate-key semantics of JS object literals
built by JSON.parse. -/
def lookupLast (fields : List (String × JVal)) (k : String) : Option JVal :=
  List.foldl (fun acc p => if p.1 = k then some p.2 else acc) none fields

/-- Own-property read on a non-nullish base. The runtime only reads the keys
v, masks, active, x, y, w, h, none of which exist on primitives or arrays,
so those bases yield undefined. -/
def propOf : JVal → String → JVal
  | .jobj fs, k => (lookupLast fs k).getD .jundef
  | _, _ => .jundef

inductive JsErr where
  | typeError
  | uriError
  | invalidCharacter
deriving DecidableEq

/-- JavaScript property access v.k: throws TypeError when the base is null or
undefined. -/
def getPropE : JVal → String → Except JsErr JVal
  | .jnull, _ => .error .typeError
  | .jundef, _ => .error .typeError
  | v, k => .ok (propOf v k)

def isJsWs (c : Char) : Bool :=
  c == ' ' || c == '\t' || c == '\n' || c == '\r' || c == '\x0b' || c == '\x0c'

def jsTrimList (cs : List Char) : List Char :=
  ((cs.dropWhile isJsWs).reverse.dropWhile isJsWs).reverse

def takeDigits : List Char → List Nat × List Char
  | [] => ([], [])
  | c :: cs =>
    if c.isDigit then
      let p := takeDigits cs
      ((c.toNat - 48) :: p.1, p.2)
    else ([], c :: cs)

def digitsVal (ds : List Nat) : Nat := ds.foldl (fun a d => a * 10 + d) 0

def hexVal (c : Char) : Option Nat :=
  if c.isDigit then some (c.toNat - 48)
  else if 'a' ≤ c ∧ c ≤ 'f' then some (c.toNat - 87)
  else if 'A' ≤ c ∧ c ≤ 'F' then some (c.toNat - 55)
  else none

def takeHexDigits : List Char → List Nat × List Char
  | [] => ([], [])
  | c :: cs =>
    match hexVal c with
    | some v =>
      let p := takeHexDigits cs
      (v :: p.1, p.2)
    | none => ([], c :: cs)

def hexDigitsVal (ds : List Nat) : Nat := ds.foldl (fun a d => a * 16 + d) 0

/-- Assemble a decimal value from sign, integer digits, fraction digits and a
signed decimal exponent. -/
def decOfParts (neg : Bool) (intDs fracDs : List Nat) (expNeg : Bool)
    (expDs : List Nat) : Dec :=
  let m0 : Int := Int.ofNat (digitsVal (intDs ++ fracDs))
  let m1 : Int := if neg then - m0 else m0
  let k : Int :=
    (if expNeg then - Int.ofNat (digitsVal expDs) else Int.ofNat (digitsVal expDs))
      - Int.ofNat fracDs.length
  if 0 ≤ k then ⟨m1 * (10 : Int) ^ k.toNat, 0⟩ else ⟨m1, (- k).toNat⟩

def strToNumberExp (neg : Bool) (ids fds : List Nat) (eneg : Bool)
    (cs : List Char) : Option Dec :=
  let p := takeDigits cs
  if p.1 = [] ∨ p.2 ≠ [] then none else some (decOfParts neg ids fds eneg p.1)

/-- Decimal body of Number() string conversion, sign already stripped; the
whole remaining input must be consumed. Non-decimal forms (no digits at all,
Infinity) yield none, which the callers treat as the non-finite case. -/
def strToNumberCore (neg : Bool) (cs : List Char) : Option Dec :=
  let p1 := takeDigits cs
  let ids := p1.1
  let p2 :=
    match p1.2 with
    | '.' :: rest => takeDigits rest
    | _ => (([] : List Nat), p1.2)
  let fds := p2.1
  if ids = [] ∧ fds = [] then none
  else
    match p2.2 with
    | [] => some (decOfParts neg ids fds false [])
    | 'e' :: rest =>
      (match rest with
       | '+' :: rest2 => strToNumberExp neg ids fds false rest2
       | '-' :: rest2 => strToNumberExp neg ids fds true rest2
       | rest2 => strToNumberExp neg ids fds false rest2)
    | 'E' :: rest =>
      (match rest with
       | '+' :: rest2 => strToNumberExp neg ids fds false rest2
       | '-' :: rest2 => strToNumberExp neg ids fds true rest2
       | rest2 => strToNumberExp neg ids fds false rest2)
    | _ => none

/-- ECMAScript Number() on a string: trimmed, empty means 0, decimal literal
with optional sign/fraction/exponent, unsigned hex with 0x prefix. The
non-finite results (NaN, Infinity) are collapsed to none, which is how every
call site (ToInt32, Number.isFinite) treats them. -/
def strToNumber (s : String) : Option Dec :=
  let cs := jsTrimList s.data
  match cs with
  | [] => some Dec.zero
  | '0' :: 'x' :: rest =>
    let p := takeHexDigits rest
    if p.1 = [] ∨ p.2 ≠ [] then none else some ⟨Int.ofNat (hexDigitsVal p.1), 0⟩
  | '0' :: 'X' :: rest =>
    let p := takeHexDigits rest
    if p.1 = [] ∨ p.2 ≠ [] then none else some ⟨Int.ofNat (hexDigitsVal p.1), 0⟩
  | '+' :: rest => strToNumberCore false rest
  | '-' :: rest => strToNumberCore true rest
  | _ => strToNumberCore false cs

/-- ECMAScript Number() on the values reachable here. A one-element array
coerces through its string form, which for the JSON-representable contents
below agrees with coercing the element (booleans excepted, whose string form
is not numeric); other non-empty compounds stringify to non-numeric text. -/
def toNumberJS : JVal → Option Dec
  | .jundef => none
  | .jnull => some Dec.zero
  | .jbool b => some (if b then Dec.one else Dec.zero)
  | .jnum d => some d
  | .jstr s => strToNumber s
  | .jarr [] => some Dec.zero
  | .jarr [.jbool _] => none
  | .jarr [x] => toNumberJS x
  | .jarr (_ :: _ :: _) => none
  | .jobj _ => none

/-- ECMAScript x | 0: ToInt32 after ToNumber, with NaN and infinities
becoming 0. -/
def toInt32 (o : Option Dec) : Int :=
  match o with
  | none => 0
  | some d => toInt32D d

/-- The active field as resolved on line 21 of runtime.js:
Number.isFinite(Number(x)) selects the coerced value, else 0. -/
def numOrZero (v : JVal) : Dec :=
  match toNumberJS v with
  | some d => d
  | none => Dec.zero

def parseIntDigits (neg : Bool) (cs : List Char) : Option Int :=
  let p := takeDigits cs
  if p.1 = [] then none
  else some (if neg then - Int.ofNat (digitsVal p.1) else Int.ofNat (digitsVal p.1))

/-- ECMAScript parseInt(s, 10): leading whitespace skipped, optional sign,
longest leading digit run; NaN (none) when no digit is found. -/
def parseIntJS (s : String) : Option Int :=
  let cs := s.data.dropWhile isJsWs
  match cs with
  | '+' :: rest => parseIntDigits false rest
  | '-' :: rest => parseIntDigits true rest
  | _ => parseIntDigits false cs

/-- JavaScript x || d for an optional integer (none models NaN; 0 is falsy). -/
def jsOrI (o : Option Int) (d : Int) : Int :=
  match o with
  | none => d
  | some n => if n = 0 then d else n

/-- JavaScript s || d for strings (empty string is falsy). -/
def jsOrS (s d : String) : String := if s = "" then d else s

/-- getAttribute(k) || d: a missing attribute is null, hence falsy. -/
def attrOr (o : Option String) (d : String) : String :=
  match o with
  | none => d
  | some s => jsOrS s d

def jsTrimStr (s : String) : String := String.mk (jsTrimList s.data)

def lbraceC : Char := Char.ofNat 123

def rbraceC : Char := Char.ofNat 125

def skipJsonWs (cs : List Char) : List Char :=
  cs.dropWhile (fun c => c == ' ' || c == '\t' || c == '\n' || c == '\r')

def jsonEscChar (c : Char) : Option Char :=
  if c = '"' then some '"'
  else if c = '\\' then some '\\'
  else if c = '/' then some '/'
  else if c = 'b' then some (Char.ofNat 8)
  else if c = 'f' then some (Char.ofNat 12)
  else if c = 'n' then some '\n'
  else if c = 'r' then some '\r'
  else if c = 't' then some '\t'
  else none

/-- JSON string body after the opening quote; fuel bounds the remaining
input length. -/
def parseJsonStr : Nat → List Char → List Char → Except Unit (String × List Char)
  | 0, _, _ => .error ()
  | _ + 1, _, [] => .error ()
  | fuel + 1, acc, c :: cs =>
    if c = '"' then .ok (String.mk acc.reverse, cs)
    else if c = '\\' then
      match cs with
      | [] => .error ()
      | e :: cs2 =>
        if e = 'u' then
          match cs2 with
          | a :: b :: c2 :: d :: cs3 =>
            match hexVal a, hexVal b, hexVal c2, hexVal d with
            | some ha, some hb, some hc, some hd =>
              parseJsonStr fuel
                (Char.ofNat (((ha * 16 + hb) * 16 + hc) * 16 + hd) :: acc) cs3
            | _, _, _, _ => .error ()
          | _ => .error ()
        else
          match jsonEscChar e with
          | some ch => parseJsonStr fuel (ch :: acc) cs2
          | none => .error ()
    else if c.toNat < 32 then .error ()
    else parseJsonStr fuel (c :: acc) cs

/-- JSON forbids leading zeros on multi-digit integer parts. -/
def jsonIntOk : List Nat → Bool
  | [] => false
  | [_] => true
  | 0 :: _ :: _ => false
  | _ => true

def parseJsonExpTail (neg : Bool) (ids fds : List Nat) (cs : List Char) :
    Except Unit (Dec × List Char) :=
  let q :=
    match cs with
    | '+' :: rest => (false, rest)
    | '-' :: rest => (true, rest)
    | _ => (false, cs)
  let p := takeDigits q.2
  if p.1 = [] then .error () else .ok (decOfParts neg ids fds q.1 p.1, p.2)

def parseJsonExp (neg : Bool) (ids fds : List Nat) (cs : List Char) :
    Except Unit (Dec × List Char) :=
  match cs with
  | 'e' :: rest => parseJsonExpTail neg ids fds rest
  | 'E' :: rest => parseJsonExpTail neg ids fds rest
  | _ => .ok (decOfParts neg ids fds false [], cs)

def parseJsonNum (cs : List Char) : Except Unit (Dec × List Char) :=
  let p :=
    match cs with
    | '-' :: rest => (true, rest)
    | _ => (false, cs)
  let q := takeDigits p.2
  if jsonIntOk q.1 = false then .error ()
  else
    match q.2 with
    | '.' :: rest =>
      let f := takeDigits rest
      if f.1 = [] then .error () else parseJsonExp p.1 q.1 f.1 f.2
    | _ => parseJsonExp p.1 q.1 [] q.2

def parseJsonNumWrap (cs : List Char) : Except Unit (JVal × List Char) :=
  match parseJsonNum cs with
  | .ok (d, r) => .ok (.jnum d, r)
  | .error _ => .error ()

mutual

/-- Recursive-descent JSON value parser; fuel decreases on every nested call
and one fuel unit never outlives one consumed input character, so an initial
fuel of input length + 2 always suffices. -/
def parseJsonVal : Nat → List Char → Except Unit (JVal × List Char)
  | 0, _ => .error ()
  | fuel + 1, cs =>
    match skipJsonWs cs with
    | 'n' :: 'u' :: 'l' :: 'l' :: rest => .ok (.jnull, rest)
    | 't' :: 'r' :: 'u' :: 'e' :: rest => .ok (.jbool true, rest)
    | 'f' :: 'a' :: 'l' :: 's' :: 'e' :: rest => .ok (.jbool false, rest)
    | '"' :: rest =>
      (match parseJsonStr (rest.length + 1) [] rest with
       | .ok (s, r) => .ok (.jstr s, r)
       | .error _ => .error ())
    | '[' :: rest =>
      (match skipJsonWs rest with
       | ']' :: r2 => .ok (.jarr [], r2)
       | cs2 => parseJsonArrItems fuel cs2 [])
    | c :: rest =>
      if c = lbraceC then
        match skipJsonWs rest with
        | [] => .error ()
        | d :: r2 =>
          if d = rbraceC then .ok (.jobj [], r2)
          else parseJsonObjItems fuel (d :: r2) []
      else parseJsonNumWrap (c :: rest)
    | [] => .error ()

def parseJsonArrItems : Nat → List Char → List JVal →
    Except Unit (JVal × List Char)
  | 0, _, _ => .error ()
  | fuel + 1, cs, acc =>
    match parseJsonVal fuel cs with
    | .error _ => .error ()
    | .ok (v, r1) =>
      match skipJsonWs r1 with
      | ',' :: r2 => parseJsonArrItems fuel r2 (v :: acc)
      | ']' :: r2 => .ok (.jarr (v :: acc).reverse, r2)
      | _ => .error ()

def parseJsonObjItems : Nat → List Char → List (String × JVal) →
    Except Unit (JVal × List Char)
  | 0, _, _ => .error ()
  | fuel + 1, cs, acc =>
    match skipJsonWs cs with
    | '"' :: rest =>
      (match parseJsonStr (rest.length + 1) [] rest with
       | .error _ => .error ()
       | .ok (k, r1) =>
         match skipJsonWs r1 with
         | ':' :: r2 =>
           (match parseJsonVal fuel r2 with
            | .error _ => .error ()
            | .ok (v, r3) =>
              match skipJsonWs r3 with
              | ',' :: r4 => parseJsonObjItems fuel r4 ((k, v) :: acc)
              | c :: r4 =>
                if c = rbraceC then .ok (.jobj ((k, v) :: acc).reverse, r4)
                else .error ()
              | [] => .error ())
         | _ => .error ())
    | _ => .error ()

end

/-- Model of JSON.parse restricted to the JSON grammar; .error stands for the
SyntaxError the host throws, which every caller catches. -/
def jsonParse (s : String) : Except Unit JVal :=
  match parseJsonVal (s.data.length + 2) s.data with
  | .error _ => .error ()
  | .ok (v, rest) =>
    match skipJsonWs rest with
    | [] => .ok v
    | _ => .error ()

def b64Val (c : Char) : Option Nat :=
  if 'A' ≤ c ∧ c ≤ 'Z' then some (c.toNat - 65)
  else if 'a' ≤ c ∧ c ≤ 'z' then some (c.toNat - 71)
  else if c.isDigit then some (c.toNat + 4)
  else if c = '+' then some 62
  else if c = '/' then some 63
  else none

def b64Vals : List Char → Option (List Nat)
  | [] => some []
  | c :: cs =>
    match b64Val c, b64Vals cs with
    | some v, some vs => some (v :: vs)
    | _, _ => none

def b64Bytes : List Nat → List Nat
  | a :: b :: c :: d :: rest =>
    (a * 4 + b / 16) :: ((b % 16) * 16 + c / 4) :: ((c % 4) * 64 + d)
      :: b64Bytes rest
  | [a, b] => [a * 4 + b / 16]
  | [a, b, c] => [a * 4 + b / 16, (b % 16) * 16 + c / 4]
  | _ => []

/-- WHATWG forgiving-base64 decode as exposed by atob: ASCII whitespace is
stripped, up to two trailing padding characters are allowed, anything else
outside the alphabet throws InvalidCharacterError. The resulting byte string
is returned as a string of code points 0..255. -/
def atobModel (s : String) : Except JsErr String :=
  let cs := s.data.filter (fun c =>
    !(c == ' ' || c == '\t' || c == '\n' || c == '\x0c' || c == '\r'))
  let cs2 :=
    if cs.length % 4 == 0 then
      match cs.reverse with
      | '=' :: '=' :: rest => rest.reverse
      | '=' :: rest => rest.reverse
      | _ => cs
    else cs
  if cs2.length % 4 == 1 then .error .invalidCharacter
  else
    match b64Vals cs2 with
    | none => .error .invalidCharacter
    | some vs => .ok (String.mk ((b64Bytes vs).map Char.ofNat))

def escapeSafe (c : Char) : Bool :=
  c.isAlphanum || c == '@' || c == '*' || c == '_' || c == '+' || c == '-'
    || c == '.' || c == '/'

def hexDigitUpper (n : Nat) : Char :=
  if n < 10 then Char.ofNat (48 + n) else Char.ofNat (55 + n)

/-- ECMAScript escape(): code units outside the safe set become %XX below 256
and %uXXXX above. -/
def escapeModel (s : String) : String :=
  String.mk (s.data.flatMap (fun c =>
    if escapeSafe c then [c]
    else if c.toNat < 256 then
      ['%', hexDigitUpper (c.toNat / 16), hexDigitUpper (c.toNat % 16)]
    else
      ['%', 'u', hexDigitUpper (c.toNat / 4096 % 16),
       hexDigitUpper (c.toNat / 256 % 16), hexDigitUpper (c.toNat / 16 % 16),
       hexDigitUpper (c.toNat % 16)]))

def readPct : List Char → Option (Nat × List Char)
  | '%' :: a :: b :: rest =>
    (match hexVal a, hexVal b with
     | some ha, some hb => some (ha * 16 + hb, rest)
     | _, _ => none)
  | _ => none

/-- Decode loop of ECMAScript decodeURIComponent: percent escapes are read as
UTF-8 sequences, strictly validated (continuation shape, overlong forms,
surrogate range); anything malformed throws URIError. -/
def decodeUriAux : Nat → List Char → List Char → Except JsErr String
  | 0, _, _ => .error .uriError
  | _ + 1, acc, [] => .ok (String.mk acc.reverse)
  | fuel + 1, acc, c :: cs =>
    if c = '%' then
      match readPct (c :: cs) with
      | none => .error .uriError
      | some (b0, r0) =>
        if b0 < 128 then decodeUriAux fuel (Char.ofNat b0 :: acc) r0
        else if 192 ≤ b0 ∧ b0 < 224 then
          match readPct r0 with
          | none => .error .uriError
          | some (b1, r1) =>
            if 128 ≤ b1 ∧ b1 < 192 then
              let cp := (b0 - 192) * 64 + (b1 - 128)
              if 128 ≤ cp then decodeUriAux fuel (Char.ofNat cp :: acc) r1
              else .error .uriError
            else .error .uriError
        else if 224 ≤ b0 ∧ b0 < 240 then
          match readPct r0 with
          | none => .error .uriError
          | some (b1, r1) =>
            match readPct r1 with
            | none => .error .uriError
            | some (b2, r2) =>
              if (128 ≤ b1 ∧ b1 < 192) ∧ (128 ≤ b2 ∧ b2 < 192) then
                let cp := (b0 - 224) * 4096 + (b1 - 128) * 64 + (b2 - 128)
                if 2048 ≤ cp ∧ ¬ (55296 ≤ cp ∧ cp < 57344) then
                  decodeUriAux fuel (Char.ofNat cp :: acc) r2
                else .error .uriError
              else .error .uriError
        else if 240 ≤ b0 ∧ b0 < 248 then
          match readPct r0 with
          | none => .error .uriError
          | some (b1, r1) =>
            match readPct r1 with
            | none => .error .uriError
            | some (b2, r2) =>
              match readPct r2 with
              | none => .error .uriError
              | some (b3, r3) =>
                if (128 ≤ b1 ∧ b1 < 192) ∧ (128 ≤ b2 ∧ b2 < 192)
                    ∧ (128 ≤ b3 ∧ b3 < 192) then
                  let cp := (b0 - 240) * 262144 + (b1 - 128) * 4096
                    + (b2 - 128) * 64 + (b3 - 128)
                  if 65536 ≤ cp ∧ cp ≤ 1114111 then
                    decodeUriAux fuel (Char.ofNat cp :: acc) r3
                  else .error .uriError
                else .error .uriError
        else .error .uriError
    else decodeUriAux fuel (c :: acc) cs

def decodeURIComponentModel (s : String) : Except JsErr String :=
  decodeUriAux (s.data.length + 1) [] s.data

/-- Mirror of b64ToUtf8 (runtime.js lines 4-7). atob is deterministic, so the
second atob call inside the catch returns the same bytes as the first; both
failing yields the empty string. -/
def b64ToUtf8 (b64 : String) : String :=
  match atobModel b64 with
  | .error _ => ""
  | .ok bytes =>
    match decodeURIComponentModel (escapeModel bytes) with
    | .ok t => t
    | .error _ => bytes

def utf8EncodeChar (n : Nat) : List Nat :=
  if n < 128 then [n]
  else if n < 2048 then [192 + n / 64, 128 + n % 64]
  else if n < 65536 then [224 + n / 4096, 128 + n / 64 % 64, 128 + n % 64]
  else [240 + n / 262144, 128 + n / 4096 % 64, 128 + n / 64 % 64, 128 + n % 64]

def b64Char (n : Nat) : Char :=
  if n < 26 then Char.ofNat (65 + n)
  else if n < 52 then Char.ofNat (71 + n)
  else if n < 62 then Char.ofNat (n - 4)
  else if n = 62 then '+'
  else '/'

def b64EncodeBytes : List Nat → List Char
  | a :: b :: c :: rest =>
    b64Char (a / 4) :: b64Char ((a % 4) * 16 + b / 16)
      :: b64Char ((b % 16) * 4 + c / 64) :: b64Char (c % 64)
      :: b64EncodeBytes rest
  | [a, b] => [b64Char (a / 4), b64Char ((a % 4) * 16 + b / 16),
      b64Char ((b % 16) * 4), '=']
  | [a] => [b64Char (a / 4), b64Char ((a % 4) * 16), '=', '=']
  | [] => []

/-- Modelled from the spec: the encoder that produces the legacy attribute is
upstream of this repository (spec section 1 places payload encoding out of
scope); sections 4.1 and 6 fix it as UTF-8 text then base64, which is what
this function performs. -/
def encodeUtf8B64 (s : String) : String :=
  String.mk (b64EncodeBytes (s.data.flatMap (fun c => utf8EncodeChar c.toNat)))

/-- Result of the structured decoder (runtime.js line 23). -/
structure Internal where
  masks : List JVal
  active : Dec

/-- Attributes and children of one overlay root that the runtime reads.
internalScript is the textContent of the script.aioe-internal child when one
exists; hasImg records whether root.querySelector("img") finds an image. -/
structure Root where
  internalScript : Option String
  dataSide : Option String
  dataActive : Option String
  dataMasksB64 : Option String
  dataFillFront : Option String
  dataFillOther : Option String
  dataStroke : Option String
  dataOutlinePx : Option String
  hasImg : Bool

/-- Shape checks of runtime.js lines 17-23, applied to a JSON.parse result.
null and primitives fail the object test (typeof, truthiness); arrays pass
typeof "object" but have no v property, so the version test rejects them. -/
def internalOfObj (obj : JVal) : Option Internal :=
  match obj with
  | .jarr _ | .jobj _ =>
    if toInt32 (toNumberJS (propOf obj "v")) < 1 then none
    else
      let masksV := propOf obj "masks"
      let active := numOrZero (propOf obj "active")
      match masksV with
      | .jarr ms => some ⟨ms, active⟩
      | _ => none
  | _ => none

/-- Mirror of aioeParseInternalFromDom (runtime.js lines 9-27). The try/catch
absorbs the JSON.parse SyntaxError into null. -/
def aioeParseInternalFromDom (root : Root) : Option Internal :=
  match root.internalScript with
  | none => none
  | some txt =>
    let t := jsTrimStr txt
    if t = "" then none
    else
      match jsonParse t with
      | .error _ => none
      | .ok obj => internalOfObj obj

/-- Mirror of parseMasksB64 (runtime.js lines 29-32): JSON.parse of the
decoded text, with the literal fallback object on SyntaxError. -/
def parseMasksB64 (b64 : String) : JVal :=
  match jsonParse (b64ToUtf8 b64) with
  | .ok v => v
  | .error _ => .jobj [("v", .jnum Dec.one), ("masks", .jarr [])]

/-- The (activeIndex, masks) pair initOne resolves on lines 105-117. -/
structure Resolved where
  activeIndex : Int
  masks : List JVal

/-- Legacy branch of initOne (runtime.js lines 112-116). The property read
parsed.masks is a real JS property access and throws when parseMasksB64
returned null. -/
def legacyResolve (root : Root) : Except JsErr Resolved :=
  let ai := jsOrI (parseIntJS (attrOr root.dataActive "0")) 0
  let b64 := root.dataMasksB64.getD ""
  let parsed := parseMasksB64 b64
  match getPropE parsed "masks" with
  | .error err => .error err
  | .ok mv => .ok ⟨ai, match mv with | .jarr xs => xs | _ => []⟩

/-- Data resolution of initOne (runtime.js lines 104-117). In the structured
branch internal.masks is the array the decoder accepted, so the
Array.isArray(internal.masks) guard on line 110 always takes its true arm. -/
def resolveData (root : Root) : Except JsErr Resolved :=
  match aioeParseInternalFromDom root with
  | some internal => .ok ⟨toInt32D internal.active, internal.masks⟩
  | none => legacyResolve root

/-- The style object built on runtime.js lines 119-124. -/
structure Style where
  fill_front : String
  fill_other : String
  stroke : String
  outline_px : Int
deriving DecidableEq

def resolveStyle (root : Root) : Style :=
  ⟨root.dataFillFront.getD "", root.dataFillOther.getD "",
   root.dataStroke.getD "",
   jsOrI (parseIntJS (attrOr root.dataOutlinePx "2")) 2⟩

/-- What initOne produces for one root before any drawing: inert when the
root has no image (line 127), otherwise the captured render configuration. -/
inductive Outcome where
  | inert
  | initialized (side : String) (activeIndex : Int) (masks : List JVal)
      (style : Style)

/-- Mirror of initOne (runtime.js lines 100-140) up to the data and style
resolution; the image check happens after resolution, so a resolution throw
escapes even for an inert root. -/
def initOne (root : Root) : Except JsErr Outcome :=
  let side := attrOr root.dataSide "front"
  match resolveData root with
  | .error err => .error err
  | .ok r =>
    let style := resolveStyle root
    if root.hasImg then .ok (.initialized side r.activeIndex r.masks style)
    else .ok .inert

/-- Mirror of init (runtime.js lines 142-145): roots.forEach(initOne). An
exception thrown by the callback aborts forEach, so the outcomes of the
remaining roots are never produced. -/
def initAll : List Root → List Outcome × Option JsErr
  | [] => ([], none)
  | r :: rs =>
    match initOne r with
    | .error err => ([], some err)
    | .ok o =>
      let p := initAll rs
      (o :: p.1, p.2)

/-- DOM state around one image: how many .aioe-wrap wrappers enclose it and
how many canvas.aioe-cv live in that wrapper. A fresh image has neither. -/
structure Scaffold where
  wrappers : Nat
  canvases : Nat
deriving DecidableEq

/-- Mirror of ensureWrapper (runtime.js lines 34-42): img.closest(".aioe-wrap")
finding a wrapper means a positive count and returns it unchanged; otherwise
exactly one wrapper is created around the image. -/
def ensureWrapper (s : Scaffold) : Scaffold :=
  if 0 < s.wrappers then s else ⟨s.wrappers + 1, s.canvases⟩

/-- Mirror of makeCanvas (runtime.js lines 44-51): an existing
canvas.aioe-cv inside the wrapper is returned, else one is appended. -/
def makeCanvas (s : Scaffold) : Scaffold :=
  if 0 < s.canvases then s else ⟨s.wrappers, s.canvases + 1⟩

/-- A mask record with its numeric fields, the shape the spec data model
gives (fractional x, y, w, h). -/
structure Mask where
  x : Dec
  y : Dec
  w : Dec
  h : Dec
deriving DecidableEq

/-- The image box returned by getBoundingClientRect (CSS pixels). -/
structure RectBox where
  width : Dec
  height : Dec
deriving DecidableEq

/-- One 2d-context operation issued by draw, in program order: each property
assignment and each rect call of runtime.js lines 70-96 becomes one entry. -/
inductive CanvasOp where
  | setTransform (a b c d e f : Dec)
  | clearRect (x y w h : Dec)
  | setFillStyle (s : String)
  | fillRect (x y w h : Dec)
  | setLineWidth (w : Int)
  | setStrokeStyle (s : String)
  | strokeRect (x y w h : Dec)
deriving DecidableEq

/-- Result of one draw call: either the early return that schedules
requestAnimationFrame on the identical arguments (runtime.js lines 58-61), or
a painted frame with the CSS size, the backing-buffer size and the issued
context operations. -/
inductive DrawResult where
  | rescheduled (side : String) (masks : List Mask) (activeIndex : Int)
      (style : Style)
  | painted (cssW cssH : Dec) (bufW bufH : Int) (ops : List CanvasOp)

/-- style.stroke || "rgba(0,0,0,0.65)" (runtime.js line 73). -/
def strokeOf (st : Style) : String := jsOrS st.stroke "rgba(0,0,0,0.65)"

/-- style.fill_front || "rgba(40,40,40,0.85)" (line 74). -/
def fillFrontOf (st : Style) : String := jsOrS st.fill_front "rgba(40,40,40,0.85)"

/-- style.fill_other || "rgba(255,215,0,0.35)" (line 75). -/
def fillOtherOf (st : Style) : String := jsOrS st.fill_other "rgba(255,215,0,0.35)"

/-- style.outline_px || 2 (line 76; 0 is the only falsy integer). -/
def lwOf (st : Style) : Int := if st.outline_px = 0 then 2 else st.outline_px

/-- Body of the masks.forEach callback (runtime.js lines 78-97) for the mask
at ordinal index idx: the operations it issues, in order. -/
def maskOps (side : String) (activeIndex : Int) (stroke fillFront fillOther :
    String) (lw : Int) (rect : RectBox) (idx : Nat) (m : Mask) :
    List CanvasOp :=
  let x := m.x * rect.width
  let y := m.y * rect.height
  let w := m.w * rect.width
  let h := m.h * rect.height
  (if side = "front" then
    [CanvasOp.setFillStyle
       (if (idx : Int) = activeIndex then fillFront else fillOther),
     CanvasOp.fillRect x y w h]
   else if (idx : Int) = activeIndex then []
   else [CanvasOp.setFillStyle fillOther, CanvasOp.fillRect x y w h])
  ++ [CanvasOp.setLineWidth lw, CanvasOp.setStrokeStyle stroke,
      CanvasOp.strokeRect (x + Dec.half) (y + Dec.half) w h]

/-- Mirror of draw (runtime.js lines 53-98). The wrapper and canvas are
ensured before the box guard; rect is the getBoundingClientRect result and
dpr the devicePixelRatio (the !r branch of line 58 is unreachable in
browsers, where getBoundingClientRect always returns a rect). -/
def draw (sc : Scaffold) (side : String) (rect : RectBox) (dpr : Dec)
    (masks : List Mask) (activeIndex : Int) (style : Style) :
    Scaffold × DrawResult :=
  let sc1 := ensureWrapper sc
  let sc2 := makeCanvas sc1
  if rect.width.blt 2 || rect.height.blt 2 then
    (sc2, .rescheduled side masks activeIndex style)
  else
    let dprv := if dpr.isZero then Dec.one else dpr
    let bufW := max 1 (roundJS (rect.width * dprv))
    let bufH := max 1 (roundJS (rect.height * dprv))
    let stroke := strokeOf style
    let fillFront := fillFrontOf style
    let fillOther := fillOtherOf style
    let lw := lwOf style
    let ops :=
      [CanvasOp.setTransform dprv Dec.zero Dec.zero dprv Dec.zero Dec.zero,
       CanvasOp.clearRect Dec.zero Dec.zero rect.width rect.height]
      ++ masks.enum.flatMap (fun p =>
           maskOps side activeIndex stroke fillFront fillOther lw rect p.1 p.2)
    (sc2, .painted rect.width rect.height bufW bufH ops)

def opsOf : DrawResult → List CanvasOp
  | .painted _ _ _ _ ops => ops
  | _ => []

/-- The device pixel ratio after the || 1 default (runtime.js line 63). -/
def dprOf (dpr : Dec) : Dec := if dpr.isZero then Dec.one else dpr

lemma draw_small_eq (sc : Scaffold) (side : String) (rect : RectBox)
    (dpr : Dec) (masks : List Mask) (ai : Int) (st : Style)
    (h : (rect.width.blt 2 || rect.height.blt 2) = true) :
    draw sc side rect dpr masks ai st
      = (makeCanvas (ensureWrapper sc),
         DrawResult.rescheduled side masks ai st) := by
  unfold draw
  rw [h]
  simp

lemma draw_painted_eq (sc : Scaffold) (side : String) (rect : RectBox)
    (dpr : Dec) (masks : List Mask) (ai : Int) (st : Style)
    (h : (rect.width.blt 2 || rect.height.blt 2) = false) :
    draw sc side rect dpr masks ai st
      = (makeCanvas (ensureWrapper sc),
         DrawResult.painted rect.width rect.height
           (max 1 (roundJS (rect.width * dprOf dpr)))
           (max 1 (roundJS (rect.height * dprOf dpr)))
           ([CanvasOp.setTransform (dprOf dpr) Dec.zero Dec.zero (dprOf dpr)
               Dec.zero Dec.zero,
             CanvasOp.clearRect Dec.zero Dec.zero rect.width rect.height]
            ++ masks.enum.flatMap (fun p =>
                 maskOps side ai (strokeOf st) (fillFrontOf st)
                   (fillOtherOf st) (lwOf st) rect p.1 p.2))) := by
  unfold draw dprOf
  rw [h]
  simp

/-- Claim C1: for a draw whose image box passes the minimal threshold, in
"front" mode every mask is filled (the one at activeIndex with the active
fill color, all others with the other fill color); in any non-front mode
only masks with index different from activeIndex are filled (with the other
fill color) and the active mask gets no fill operation; in both modes every
mask receives an outline stroke with the configured stroke color and width
at a 0.5-pixel-inset origin. -/
theorem draw_front_and_back_fill_outline
    (sc : Scaffold) (side : String) (rect : RectBox) (dpr : Dec)
    (masks : List Mask) (ai : Int) (st : Style)
    (hw : rect.width.blt 2 = false) (hh : rect.height.blt 2 = false) :
    (∃ bw bh,
      (draw sc side rect dpr masks ai st).2
        = DrawResult.painted rect.width rect.height bw bh
            ([CanvasOp.setTransform (dprOf dpr) Dec.zero Dec.zero (dprOf dpr)
                Dec.zero Dec.zero,
              CanvasOp.clearRect Dec.zero Dec.zero rect.width rect.height]
             ++ masks.enum.flatMap (fun p =>
                  maskOps side ai (strokeOf st) (fillFrontOf st)
                    (fillOtherOf st) (lwOf st) rect p.1 p.2)))
    ∧ (∀ (idx : Nat) (m : Mask), side = "front" →
        maskOps side ai (strokeOf st) (fillFrontOf st) (fillOtherOf st)
            (lwOf st) rect idx m
          = [CanvasOp.setFillStyle
               (if (idx : Int) = ai then fillFrontOf st else fillOtherOf st),
             CanvasOp.fillRect (m.x * rect.width) (m.y * rect.height)
               (m.w * rect.width) (m.h * rect.height),
             CanvasOp.setLineWidth (lwOf st),
             CanvasOp.setStrokeStyle (strokeOf st),
             CanvasOp.strokeRect (m.x * rect.width + Dec.half)
               (m.y * rect.height + Dec.half) (m.w * rect.width)
               (m.h * rect.height)])
    ∧ (∀ (idx : Nat) (m : Mask), side ≠ "front" → (idx : Int) ≠ ai →
        maskOps side ai (strokeOf st) (fillFrontOf st) (fillOtherOf st)
            (lwOf st) rect idx m
          = [CanvasOp.setFillStyle (fillOtherOf st),
             CanvasOp.fillRect (m.x * rect.width) (m.y * rect.height)
               (m.w * rect.width) (m.h * rect.height),
             CanvasOp.setLineWidth (lwOf st),
             CanvasOp.setStrokeStyle (strokeOf st),
             CanvasOp.strokeRect (m.x * rect.width + Dec.half)
               (m.y * rect.height + Dec.half) (m.w * rect.width)
               (m.h * rect.height)])
    ∧ (∀ (idx : Nat) (m : Mask), side ≠ "front" → (idx : Int) = ai →
        maskOps side ai (strokeOf st) (fillFrontOf st) (fillOtherOf st)
            (lwOf st) rect idx m
          = [CanvasOp.setLineWidth (lwOf st),
             CanvasOp.setStrokeStyle (strokeOf st),
             CanvasOp.strokeRect (m.x * rect.width + Dec.half)
               (m.y * rect.height + Dec.half) (m.w * rect.width)
               (m.h * rect.height)]) := by
  have hb : (rect.width.blt 2 || rect.height.blt 2) = false := by
    simp [hw, hh]
  refine ⟨⟨_, _, congrArg Prod.snd
    (draw_painted_eq sc side rect dpr masks ai st hb)⟩, ?_, ?_, ?_⟩
  · intro idx m hs
    simp [maskOps, hs]
  · intro idx m hs hi
    simp [maskOps, hs, hi]
  · intro idx m hs hi
    simp [maskOps, hs, hi]

/-- Witness for C1 at a concrete input: a 200 by 100 box passes the guard
and the painted operations have the stated shape. -/
theorem draw_front_and_back_fill_outline_witness :
    (Dec.blt 200 2 = false) ∧ (Dec.blt 100 2 = false)
    ∧ (∃ bw bh,
        (draw ⟨0, 0⟩ "front" ⟨200, 100⟩ 2 [⟨⟨1, 1⟩, ⟨1, 1⟩, ⟨1, 1⟩, ⟨1, 1⟩⟩]
            0 ⟨"", "", "", 2⟩).2
          = DrawResult.painted 200 100 bw bh
              ([CanvasOp.setTransform (dprOf 2) Dec.zero Dec.zero (dprOf 2)
                  Dec.zero Dec.zero,
                CanvasOp.clearRect Dec.zero Dec.zero 200 100]
               ++ ([⟨⟨1, 1⟩, ⟨1, 1⟩, ⟨1, 1⟩, ⟨1, 1⟩⟩] : List Mask).enum.flatMap
                    (fun p =>
                      maskOps "front" 0 (strokeOf ⟨"", "", "", 2⟩)
                        (fillFrontOf ⟨"", "", "", 2⟩)
                        (fillOtherOf ⟨"", "", "", 2⟩)
                        (lwOf ⟨"", "", "", 2⟩) ⟨200, 100⟩ p.1 p.2))) := by
  refine ⟨rfl, rfl, ?_⟩
  exact (draw_front_and_back_fill_outline ⟨0, 0⟩ "front" ⟨200, 100⟩ 2
    [⟨⟨1, 1⟩, ⟨1, 1⟩, ⟨1, 1⟩, ⟨1, 1⟩⟩] 0 ⟨"", "", "", 2⟩ rfl rfl).1

/-- Claim C2: a draw on a box below the minimal threshold paints nothing and
reschedules itself with identical arguments; a 200 by 100 box at device
pixel ratio 2 sets the CSS size to 200 by 100 and the backing buffer to
400 by 200 device pixels. -/
theorem draw_guard_reschedules_and_sizes :
    (∀ (sc : Scaffold) (side : String) (rect : RectBox) (dpr : Dec)
        (masks : List Mask) (ai : Int) (st : Style),
      rect.width.blt 2 = true ∨ rect.height.blt 2 = true →
      (draw sc side rect dpr masks ai st).2
        = DrawResult.rescheduled side masks ai st)
    ∧ (∀ (sc : Scaffold) (side : String) (masks : List Mask) (ai : Int)
        (st : Style), ∃ ops,
      (draw sc side ⟨200, 100⟩ 2 masks ai st).2
        = DrawResult.painted 200 100 400 200 ops) := by
  constructor
  · intro sc side rect dpr masks ai st h
    have hb : (rect.width.blt 2 || rect.height.blt 2) = true := by
      rcases h with h | h <;> simp [h]
    exact congrArg Prod.snd (draw_small_eq sc side rect dpr masks ai st hb)
  · intro sc side masks ai st
    exact ⟨_, congrArg Prod.snd
      (draw_painted_eq sc side ⟨200, 100⟩ 2 masks ai st rfl)⟩

/-- Witness for C2: a 0 by 0 box reschedules with the same arguments, and
the 200 by 100 box at ratio 2 yields the 400 by 200 buffer. -/
theorem draw_guard_reschedules_and_sizes_witness :
    ((draw ⟨0, 0⟩ "back" ⟨0, 0⟩ 1 [] 3 ⟨"", "", "", 2⟩).2
      = DrawResult.rescheduled "back" [] 3 ⟨"", "", "", 2⟩)
    ∧ (∃ ops, (draw ⟨0, 0⟩ "front" ⟨200, 100⟩ 2 [] 0 ⟨"", "", "", 2⟩).2
        = DrawResult.painted 200 100 400 200 ops) :=
  ⟨draw_guard_reschedules_and_sizes.1 ⟨0, 0⟩ "back" ⟨0, 0⟩ 1 [] 3
     ⟨"", "", "", 2⟩ (Or.inl rfl),
   draw_guard_reschedules_and_sizes.2 ⟨0, 0⟩ "front" [] 0 ⟨"", "", "", 2⟩⟩

/-- Claim C10: every draw call, painted or rescheduled, ensures the wrapper
and the overlay canvas before the size guard runs, so afterwards the image
has exactly one wrapper and one canvas and no call creates duplicates. -/
theorem draw_scaffolds_before_guard
    (sc : Scaffold) (side : String) (rect : RectBox) (dpr : Dec)
    (masks : List Mask) (ai : Int) (st : Style)
    (hw : sc.wrappers ≤ 1) (hc : sc.canvases ≤ 1) :
    (draw sc side rect dpr masks ai st).1 = makeCanvas (ensureWrapper sc)
    ∧ (draw sc side rect dpr masks ai st).1.wrappers = 1
    ∧ (draw sc side rect dpr masks ai st).1.canvases = 1 := by
  have h1 : (draw sc side rect dpr masks ai st).1
      = makeCanvas (ensureWrapper sc) := by
    cases hb : (rect.width.blt 2 || rect.height.blt 2) with
    | true => rw [draw_small_eq sc side rect dpr masks ai st hb]
    | false => rw [draw_painted_eq sc side rect dpr masks ai st hb]
  refine ⟨h1, ?_, ?_⟩ <;> rw [h1]
  · unfold makeCanvas ensureWrapper
    by_cases h0 : 0 < sc.wrappers <;> by_cases h2 : 0 < sc.canvases <;>
      simp [h0, h2] <;> omega
  · unfold makeCanvas ensureWrapper
    by_cases h0 : 0 < sc.wrappers <;> by_cases h2 : 0 < sc.canvases <;>
      simp [h0, h2] <;> omega

/-- Witness for C10 on a fresh image (no wrapper, no canvas) with an
unrendered box: the deferred draw still scaffolds exactly once. -/
theorem draw_scaffolds_before_guard_witness :
    ((0 : Nat) ≤ 1) ∧
    ((draw ⟨0, 0⟩ "front" ⟨0, 0⟩ 1 [] 0 ⟨"", "", "", 2⟩).1.wrappers = 1
     ∧ (draw ⟨0, 0⟩ "front" ⟨0, 0⟩ 1 [] 0 ⟨"", "", "", 2⟩).1.canvases = 1) :=
  ⟨Nat.zero_le 1,
   (draw_scaffolds_before_guard ⟨0, 0⟩ "front" ⟨0, 0⟩ 1 [] 0 ⟨"", "", "", 2⟩
      (Nat.zero_le 1) (Nat.zero_le 1)).2⟩

/-- Claim C3: a payload object whose version coerces (|0) to at least 1 and
whose masks field is an array is accepted by the structured decoder, which
returns exactly that masks sequence in original order and the numeric
coercion of the active field (0 when absent or non-finite). -/
theorem internal_decoder_accepts_valid (fs : List (String × JVal))
    (ms : List JVal)
    (hv : 1 ≤ toInt32 (toNumberJS (propOf (.jobj fs) "v")))
    (hm : propOf (.jobj fs) "masks" = .jarr ms) :
    internalOfObj (.jobj fs)
      = some ⟨ms, numOrZero (propOf (.jobj fs) "active")⟩ := by
  have hv2 : ¬ toInt32 (toNumberJS (propOf (.jobj fs) "v")) < 1 := by omega
  simp [internalOfObj, hv2, hm]

/-- Witness for C3: a concrete payload with v = 1, one mask and a
string-coercible active field decodes to that mask list and active 2. -/
theorem internal_decoder_accepts_valid_witness :
    (1 ≤ toInt32 (toNumberJS (propOf
        (.jobj [("v", .jnum ⟨1, 0⟩), ("masks", .jarr [.jnum ⟨7, 0⟩]),
          ("active", .jstr "2")]) "v")))
    ∧ internalOfObj (.jobj [("v", .jnum ⟨1, 0⟩),
        ("masks", .jarr [.jnum ⟨7, 0⟩]), ("active", .jstr "2")])
      = some ⟨[.jnum ⟨7, 0⟩], ⟨2, 0⟩⟩ :=
  ⟨by decide,
   internal_decoder_accepts_valid
     [("v", .jnum ⟨1, 0⟩), ("masks", .jarr [.jnum ⟨7, 0⟩]),
      ("active", .jstr "2")] [.jnum ⟨7, 0⟩] (by decide) rfl⟩

/-- Claim C4: a structured payload whose version coerces below 1 or whose
masks field is not an array is treated as absent without an error, and the
resolver falls through to the legacy attribute source. -/
theorem structured_invalid_falls_back (root : Root) (txt : String)
    (fs : List (String × JVal))
    (hs : root.internalScript = some txt)
    (hp : jsonParse (jsTrimStr txt) = .ok (.jobj fs))
    (hbad : toInt32 (toNumberJS (propOf (.jobj fs) "v")) < 1
      ∨ ∀ ms, propOf (.jobj fs) "masks" ≠ .jarr ms) :
    aioeParseInternalFromDom root = none
    ∧ resolveData root = legacyResolve root := by
  have hobj : internalOfObj (.jobj fs) = none := by
    rcases hbad with h | h
    · simp [internalOfObj, h]
    · cases hx : propOf (.jobj fs) "masks" <;>
        first
        | exact absurd hx (h _)
        | simp [internalOfObj, hx]
  have hnone : aioeParseInternalFromDom root = none := by
    by_cases ht : jsTrimStr txt = "" <;>
      simp [aioeParseInternalFromDom, hs, ht, hp, hobj]
  exact ⟨hnone, by simp [resolveData, hnone]⟩

/-- Witness for C4: a concrete root whose embedded payload has v = 0 falls
back to the legacy attributes, which here give active 0 and no masks. -/
theorem structured_invalid_falls_back_witness :
    (jsonParse (jsTrimStr " \x7b\"v\":0,\"masks\":[]\x7d ")
      = .ok (.jobj [("v", .jnum ⟨0, 0⟩), ("masks", .jarr [])]))
    ∧ (toInt32 (toNumberJS (propOf
        (.jobj [("v", .jnum ⟨0, 0⟩), ("masks", .jarr [])]) "v")) < 1)
    ∧ (aioeParseInternalFromDom
        ⟨some " \x7b\"v\":0,\"masks\":[]\x7d ", none, some "1", some "",
          none, none, none, none, true⟩ = none
       ∧ resolveData
           ⟨some " \x7b\"v\":0,\"masks\":[]\x7d ", none, some "1", some "",
             none, none, none, none, true⟩
         = legacyResolve
             ⟨some " \x7b\"v\":0,\"masks\":[]\x7d ", none, some "1", some "",
               none, none, none, none, true⟩)
    ∧ legacyResolve
        ⟨some " \x7b\"v\":0,\"masks\":[]\x7d ", none, some "1", some "",
          none, none, none, none, true⟩ = .ok ⟨1, []⟩ :=
  ⟨rfl, by decide,
   structured_invalid_falls_back
     ⟨some " \x7b\"v\":0,\"masks\":[]\x7d ", none, some "1", some "",
       none, none, none, none, true⟩
     " \x7b\"v\":0,\"masks\":[]\x7d "
     [("v", .jnum ⟨0, 0⟩), ("masks", .jarr [])] rfl rfl
     (Or.inl (by decide)),
   rfl⟩

/-- A root whose legacy masks attribute is the base64 of the JSON text
"null": bnVsbA== decodes to null, which JSON.parse accepts. -/
def rootNullMasks : Root :=
  ⟨none, none, none, some "bnVsbA==", none, none, none, none, true⟩

/-- A root with no attributes at all: the legacy path yields active 0 and an
empty mask list. -/
def rootPlain : Root :=
  ⟨none, none, none, none, none, none, none, none, true⟩

/-- Claim C5 (refuting evaluation): the legacy decoding path is not total.
The attribute value bnVsbA== base64-decodes to the JSON text "null", which
JSON.parse turns into null without error; reading .masks from null on
runtime.js line 116 then throws a TypeError that escapes initOne, instead of
the empty mask list the claim requires. -/
theorem legacy_null_payload_raises :
    parseMasksB64 "bnVsbA==" = JVal.jnull
    ∧ legacyResolve rootNullMasks = .error JsErr.typeError
    ∧ initOne rootNullMasks = .error JsErr.typeError :=
  ⟨rfl, rfl, rfl⟩

/-- The JSON text of the round-trip object of claim C6. -/
def rtText : String :=
  "\x7b\"v\":1,\"masks\":[\x7b\"x\":0.1,\"y\":0.2,\"w\":0.3,\"h\":0.4\x7d]\x7d"

/-- The single mask of the round-trip object of claim C6. -/
def rtMask : JVal :=
  .jobj [("x", .jnum ⟨1, 1⟩), ("y", .jnum ⟨2, 1⟩), ("w", .jnum ⟨3, 1⟩),
    ("h", .jnum ⟨4, 1⟩)]

/-- A root whose legacy masks attribute carries the UTF-8 plus base64
encoding of the round-trip JSON text. -/
def rootRoundTrip : Root :=
  ⟨none, none, none, some (encodeUtf8B64 rtText), none, none, none, none,
    true⟩

/-- Claim C6: encoding the object with v 1 and the single mask
(0.1, 0.2, 0.3, 0.4) as UTF-8 JSON text and then base64, and decoding it
through the legacy path (base64 decode, UTF-8 reinterpretation, JSON parse,
masks extraction), yields back exactly the original mask. -/
theorem legacy_roundtrip_single_mask :
    b64ToUtf8 (encodeUtf8B64 rtText) = rtText
    ∧ legacyResolve rootRoundTrip = .ok ⟨0, [rtMask]⟩ :=
  ⟨rfl, rfl⟩

/-- Claim C7 (refuting evaluation): root initialization is not independent.
With the throwing root of claim C5 first in document order, forEach aborts
on its TypeError and the healthy second root is never initialized, although
alone it initializes fine; the deferred second init() pass hits the same
throw at the same first root. -/
theorem init_aborts_on_first_throw :
    initAll [rootNullMasks, rootPlain] = ([], some JsErr.typeError)
    ∧ initAll [rootPlain]
      = ([Outcome.initialized "front" 0 [] ⟨"", "", "", 2⟩], none) :=
  ⟨rfl, rfl⟩

/-- Claim C8: the scaffolding steps are idempotent. Calling the
wrapper-ensuring step twice on any image state leaves the same single
wrapper a single call leaves, and similarly for the overlay canvas; from a
fresh image two calls produce exactly one wrapper and one canvas, not two. -/
theorem scaffold_idempotent :
    (∀ s : Scaffold, ensureWrapper (ensureWrapper s) = ensureWrapper s)
    ∧ (∀ s : Scaffold, makeCanvas (makeCanvas s) = makeCanvas s)
    ∧ (ensureWrapper (ensureWrapper ⟨0, 0⟩)).wrappers = 1
    ∧ (makeCanvas (makeCanvas (ensureWrapper ⟨0, 0⟩))).canvases = 1 := by
  refine ⟨?_, ?_, rfl, rfl⟩
  · intro s
    by_cases h : 0 < s.wrappers <;> simp [ensureWrapper, h]
  · intro s
    by_cases h : 0 < s.canvases <;> simp [makeCanvas, h]

/-- A root whose outline width attribute parses to the negative integer -3,
which is truthy and so survives both || 2 defaults. -/
def rootNegOutline : Root :=
  ⟨none, none, none, none, none, none, none, some "-3", true⟩

/-- A root whose outline width attribute is non-numeric. -/
def rootAbc : Root :=
  ⟨none, none, none, none, none, none, none, some "abc", true⟩

/-- Claim C9 (refutation): the resolved outline width is not always
positive. The attribute "-3" parses to -3, which is truthy, so both || 2
defaults keep it and the renderer strokes with line width -3. -/
theorem outline_negative_width_counterexample :
    (resolveStyle rootNegOutline).outline_px = -3
    ∧ opsOf (draw ⟨0, 0⟩ "front" ⟨200, 100⟩ 1
        [⟨⟨1, 1⟩, ⟨1, 1⟩, ⟨1, 1⟩, ⟨1, 1⟩⟩] 0 (resolveStyle rootNegOutline)).2
      = [CanvasOp.setTransform ⟨1, 0⟩ ⟨0, 0⟩ ⟨0, 0⟩ ⟨1, 0⟩ ⟨0, 0⟩ ⟨0, 0⟩,
         CanvasOp.clearRect ⟨0, 0⟩ ⟨0, 0⟩ ⟨200, 0⟩ ⟨100, 0⟩,
         CanvasOp.setFillStyle "rgba(40,40,40,0.85)",
         CanvasOp.fillRect ⟨200, 1⟩ ⟨100, 1⟩ ⟨200, 1⟩ ⟨100, 1⟩,
         CanvasOp.setLineWidth (-3),
         CanvasOp.setStrokeStyle "rgba(0,0,0,0.65)",
         CanvasOp.strokeRect ⟨2050, 2⟩ ⟨1050, 2⟩ ⟨200, 1⟩ ⟨100, 1⟩]
    ∧ ¬ (0 < (-3 : Int)) :=
  ⟨rfl, rfl, by decide⟩

lemma setLineWidth_mem_maskOps (side : String) (ai : Int)
    (stroke ff fo : String) (lw : Int) (rect : RectBox) (idx : Nat)
    (m : Mask) (v : Int)
    (h : CanvasOp.setLineWidth v ∈ maskOps side ai stroke ff fo lw rect idx m) :
    v = lw := by
  by_cases hs : side = "front"
  · simp [maskOps, hs] at h
    exact h
  · by_cases hi : (idx : Int) = ai <;> simp [maskOps, hs, hi] at h <;> exact h

lemma lwOf_ne_zero (st : Style) : lwOf st ≠ 0 := by
  unfold lwOf
  by_cases h : st.outline_px = 0 <;> simp [h]

/-- Claim C9 as amended: an absent or non-numeric outline width attribute
resolves to the default 2, and the renderer never strokes with line width
zero — but a resolved negative width (from an attribute parsing to a
negative integer, as in the counterexample) is used as-is, so the stroked
width is not always positive. -/
theorem outline_width_default_and_nonzero :
    (∀ root : Root, root.dataOutlinePx = none →
      (resolveStyle root).outline_px = 2)
    ∧ (∀ (root : Root) (s : String), root.dataOutlinePx = some s → s ≠ "" →
        parseIntJS s = none → (resolveStyle root).outline_px = 2)
    ∧ (∀ (sc : Scaffold) (side : String) (rect : RectBox) (dpr : Dec)
        (masks : List Mask) (ai : Int) (st : Style) (v : Int),
        CanvasOp.setLineWidth v ∈ opsOf (draw sc side rect dpr masks ai st).2
        → v = lwOf st ∧ v ≠ 0) := by
  refine ⟨?_, ?_, ?_⟩
  · intro root h
    show jsOrI (parseIntJS (attrOr root.dataOutlinePx "2")) 2 = 2
    rw [h]
    rfl
  · intro root s h hne hp
    show jsOrI (parseIntJS (attrOr root.dataOutlinePx "2")) 2 = 2
    rw [h]
    simp [attrOr, jsOrS, hne, hp, jsOrI]
  · intro sc side rect dpr masks ai st v hv
    cases hb : (rect.width.blt 2 || rect.height.blt 2) with
    | true =>
      rw [draw_small_eq sc side rect dpr masks ai st hb] at hv
      simp [opsOf] at hv
    | false =>
      rw [draw_painted_eq sc side rect dpr masks ai st hb] at hv
      simp only [opsOf, List.mem_append, List.mem_cons,
        List.not_mem_nil, List.mem_flatMap, or_false] at hv
      rcases hv with (h | h) | ⟨p, hp, hm⟩
      · exact absurd h (by simp)
      · exact absurd h (by simp)
      · have hvlw := setLineWidth_mem_maskOps side ai (strokeOf st)
          (fillFrontOf st) (fillOtherOf st) (lwOf st) rect p.1 p.2 v hm
        exact ⟨hvlw, hvlw ▸ lwOf_ne_zero st⟩

/-- Witness for the amended C9: the absent and the non-numeric attribute
both resolve to 2, and the concrete stroke of the counterexample draw uses
the resolved (here negative) width, which is nonzero. -/
theorem outline_width_default_and_nonzero_witness :
    ((resolveStyle rootPlain).outline_px = 2)
    ∧ ((resolveStyle rootAbc).outline_px = 2)
    ∧ ((-3 : Int) = lwOf (resolveStyle rootNegOutline) ∧ (-3 : Int) ≠ 0) :=
  ⟨outline_width_default_and_nonzero.1 rootPlain rfl,
   outline_width_default_and_nonzero.2.1 rootAbc "abc" rfl (by decide) rfl,
   outline_width_default_and_nonzero.2.2 ⟨0, 0⟩ "front" ⟨200, 100⟩ 1
     [⟨⟨1, 1⟩, ⟨1, 1⟩, ⟨1, 1⟩, ⟨1, 1⟩⟩] 0 (resolveStyle rootNegOutline) (-3)
     (by decide)⟩

end Masker
